import Mathlib

/-!
Shallow embedding of the Triton Pin-tool event dispatcher (`src/main.cpp`).

The host instrumentation API (Pin) is modelled as an environment `PinEnv`
supplying the routine/section/image resolution chain and name lookup.  The
scripting layer (Python hooks) is modelled as opaque events: each callback
produces, besides its state update, the ordered list of observable events it
performs (lock acquisitions and releases, trigger updates, scripting-hook
invocations, trace-record creation, snapshot-journal appends, process exit).
-/

namespace Triton

/-- Observable events emitted by a callback invocation: lock traffic on the
shared `AnalysisProcessor`, trigger updates, scripting-hook invocations,
instruction-record creation, snapshot-journal appends and process exit. -/
inductive Event where
  | lock : Event
  | unlock : Event
  | triggerUpdate (flag : Bool) : Event
  | hookApplyConf : Event
  | hookBeforeIRProc : Event
  | hookBefore : Event
  | hookAfter : Event
  | hookRoutine (threadId : Nat) (callback : Nat) : Event
  | hookSyscallEntry (threadId : Nat) (std : Nat) : Event
  | hookSyscallExit (threadId : Nat) (std : Nat) : Event
  | hookImageLoad (path : String) (base : Nat) (size : Nat) : Event
  | hookSignal (threadId : Nat) (sig : Int) : Event
  | hookFini : Event
  | recordCreated : Event
  | snapshotAdd (addr : Nat) (val : Nat) : Event
  | processExit (code : Nat) : Event
  deriving DecidableEq, Repr

/-- Is the event an invocation of a scripting (Python) hook? -/
def Event.isHook : Event → Bool
  | .hookApplyConf => true
  | .hookBeforeIRProc => true
  | .hookBefore => true
  | .hookAfter => true
  | .hookRoutine _ _ => true
  | .hookSyscallEntry _ _ => true
  | .hookSyscallExit _ _ => true
  | .hookImageLoad _ _ _ => true
  | .hookSignal _ _ => true
  | .hookFini => true
  | _ => false

/-- Instruction record (`Inst`): structured decode of one executed
instruction, appended to the Analysis Context trace. -/
structure Inst where
  threadId : Nat
  opcode : Nat
  opcodeCategory : Nat
  operands : List Nat
  branchTaken : Bool
  branchTargetAddress : Nat
  nextAddress : Nat
  isBranch : Bool
  deriving DecidableEq, Repr

/-- Static decode information carried by an `IRBuilder` for one instruction
(built once at instrumentation-install time). -/
structure IRBuilderInfo where
  nextAddress : Nat
  opcode : Nat
  opcodeCategory : Nat
  operands : List Nat
  isBranch : Bool
  deriving DecidableEq, Repr

/-- A captured execution-context handle (`PINContextHandler(ctx, threadId)`). -/
structure CtxHandle where
  ctx : Nat
  threadId : Nat
  deriving DecidableEq, Repr

/-- The shared mutable analysis state: the `Trigger` flag, the snapshot-journal
lock flag, the current context handle, the instruction trace, the snapshot
journal of (address, original byte) pairs, and the branch-taken counter. -/
structure APState where
  trigger : Bool
  snapshotLocked : Bool
  currentCtxH : Option CtxHandle
  trace : List Inst
  snapshot : List (Nat × Nat)
  numberOfBranchesTaken : Nat
  deriving DecidableEq, Repr

/-- Configuration surface (`PyTritonOptions`): stop/start rule sets populated
by the Python setup step before instrumentation begins. -/
structure PyTritonOptions where
  stopAnalysisFromAddr : List Nat
  stopAnalysisFromOffset : List Nat
  startAnalysisFromSymbol : Option String
  startAnalysisFromAddr : List Nat
  startAnalysisFromOffset : List Nat
  deriving Repr

/-- The host (Pin) environment: `resolveImageBase a` models the
`RTN_FindByAddress` / `RTN_Sec` / `SEC_Img` validity chain, returning the
owning image's low address when every link is valid; `findNameByAddress`
models `RTN_FindNameByAddress`. -/
structure PinEnv where
  resolveImageBase : Nat → Option Nat
  findNameByAddress : Nat → String

/-- Modulus of the `uint64` machine arithmetic used for offsets. -/
def UINT64_MOD : Nat := 2 ^ 64

/-- `uint64` subtraction `a - b` with wrap-around. -/
def sub64 (a b : Nat) : Nat := (a % UINT64_MOD + (UINT64_MOD - b % UINT64_MOD)) % UINT64_MOD

/-- `toggleWrapper(flag)`: lock, `analysisTrigger.update(flag)`, unlock. -/
def toggleWrapper (flag : Bool) (s : APState) : APState × List Event :=
  ({ s with trigger := flag }, [.lock, .triggerUpdate flag, .unlock])

/-- `getBaseAddress(address)`: under the lock, walk the routine → section →
image chain; return the image low address on success, `0` otherwise. -/
def getBaseAddress (env : PinEnv) (address : Nat) : Nat × List Event :=
  match env.resolveImageBase address with
  | some base => (base, [.lock, .unlock])
  | none => (0, [.lock, .unlock])

/-- `getInsOffset(address)`: resolve the base address; `0` when the base is
`0` (unresolved), otherwise the `uint64` difference `address - base`. -/
def getInsOffset (env : PinEnv) (address : Nat) : Nat × List Event :=
  let r := getBaseAddress env address
  if r.1 = 0 then (0, r.2) else (sub64 address r.1, r.2)

/-- `checkLockAnalysis(address)`: deactivate the Trigger when the address is in
`stopAnalysisFromAddr`, else when its offset is in `stopAnalysisFromOffset`. -/
def checkLockAnalysis (env : PinEnv) (opts : PyTritonOptions) (s : APState)
    (address : Nat) : APState × List Event :=
  if address ∈ opts.stopAnalysisFromAddr then
    toggleWrapper false s
  else
    let off := getInsOffset env address
    if off.1 ∈ opts.stopAnalysisFromOffset then
      let t := toggleWrapper false s
      (t.1, off.2 ++ t.2)
    else
      (s, off.2)

/-- `checkUnlockAnalysis(address)`: when a start symbol is configured, activate
the Trigger exactly when the address resolves to that routine name; otherwise
(`else if` chain) activate on membership of the address in
`startAnalysisFromAddr`, else of its offset in `startAnalysisFromOffset`. -/
def checkUnlockAnalysis (env : PinEnv) (opts : PyTritonOptions) (s : APState)
    (address : Nat) : APState × List Event :=
  match opts.startAnalysisFromSymbol with
  | some sym =>
      if env.findNameByAddress address = sym then
        toggleWrapper true s
      else
        (s, [])
  | none =>
      if address ∈ opts.startAnalysisFromAddr then
        toggleWrapper true s
      else
        let off := getInsOffset env address
        if off.1 ∈ opts.startAnalysisFromOffset then
          let t := toggleWrapper true s
          (t.1, off.2 ++ t.2)
        else
          (s, off.2)

/-- `callbackBefore`: gated by the Trigger; under the lock, apply pending
configuration, bind the effective address, install a fresh context handle,
fill the IR builder, run the before-IR-processing hook, build the instruction
record and append it to the trace, run the before-instruction hook. -/
def callbackBefore (s : APState) (irb : IRBuilderInfo) (ctx : Nat)
    (hasEA : Bool) (ea : Nat) (isBranchTaken : Bool)
    (branchTargetAddress : Nat) (threadId : Nat) : APState × List Event :=
  if s.trigger = false then
    (s, [])
  else
    let inst : Inst :=
      { threadId := threadId
        opcode := irb.opcode
        opcodeCategory := irb.opcodeCategory
        operands := irb.operands
        branchTaken := isBranchTaken
        branchTargetAddress := branchTargetAddress
        nextAddress := irb.nextAddress
        isBranch := irb.isBranch }
    ({ s with currentCtxH := some ⟨ctx, threadId⟩, trace := s.trace ++ [inst] },
     [.lock, .hookApplyConf, .hookBeforeIRProc, .recordCreated, .hookBefore, .unlock])

/-- `callbackAfter`: gated by the Trigger; under the lock, refresh the context
handle, fetch the last trace record, bump the branch-taken counter, run the
after-instruction hook. -/
def callbackAfter (s : APState) (ctx : Nat) (threadId : Nat) :
    APState × List Event :=
  if s.trigger = false then
    (s, [])
  else
    let inc : Nat :=
      match s.trace.getLast? with
      | some inst => if inst.isBranch then 1 else 0
      | none => 0
    ({ s with currentCtxH := some ⟨ctx, threadId⟩,
              numberOfBranchesTaken := s.numberOfBranchesTaken + inc },
     [.lock, .hookAfter, .unlock])

/-- `callbackSnapshot(mem, writeSize)`: gated by the Trigger, then by the
snapshot-journal lock flag; under the lock, append one journal entry per byte
about to be overwritten, recording its current (pre-write) value. -/
def callbackSnapshot (s : APState) (memory : Nat → Nat) (mem : Nat)
    (writeSize : Nat) : APState × List Event :=
  if s.trigger = false then
    (s, [])
  else if s.snapshotLocked then
    (s, [])
  else
    let entries := (List.range writeSize).map (fun i => (mem + i, memory (mem + i)))
    ({ s with snapshot := s.snapshot ++ entries },
     [Event.lock] ++ entries.map (fun p => Event.snapshotAdd p.1 p.2) ++ [Event.unlock])

/-- `callbackRoutineEntry`: gated by the Trigger; under the lock, refresh the
context handle and forward the opaque callback handle to the routine hook. -/
def callbackRoutineEntry (s : APState) (ctx : Nat) (threadId : Nat)
    (callback : Nat) : APState × List Event :=
  if s.trigger = false then
    (s, [])
  else
    ({ s with currentCtxH := some ⟨ctx, threadId⟩ },
     [.lock, .hookRoutine threadId callback, .unlock])

/-- `callbackRoutineExit`: gated by the Trigger; under the lock, refresh the
context handle and forward the opaque callback handle to the routine hook. -/
def callbackRoutineExit (s : APState) (ctx : Nat) (threadId : Nat)
    (callback : Nat) : APState × List Event :=
  if s.trigger = false then
    (s, [])
  else
    ({ s with currentCtxH := some ⟨ctx, threadId⟩ },
     [.lock, .hookRoutine threadId callback, .unlock])

/-- `callbackSyscallEntry`: gated by the Trigger; under the lock, refresh the
context handle and run the syscall-entry hook. -/
def callbackSyscallEntry (s : APState) (threadId : Nat) (ctx : Nat)
    (std : Nat) : APState × List Event :=
  if s.trigger = false then
    (s, [])
  else
    ({ s with currentCtxH := some ⟨ctx, threadId⟩ },
     [.lock, .hookSyscallEntry threadId std, .unlock])

/-- `callbackSyscallExit`: gated by the Trigger; under the lock, refresh the
context handle and run the syscall-exit hook. -/
def callbackSyscallExit (s : APState) (threadId : Nat) (ctx : Nat)
    (std : Nat) : APState × List Event :=
  if s.trigger = false then
    (s, [])
  else
    ({ s with currentCtxH := some ⟨ctx, threadId⟩ },
     [.lock, .hookSyscallExit threadId std, .unlock])

/-- `callbackImageLoad`: not gated by the Trigger; under the lock, forward the
image path, base and size to the image-load hook. -/
def callbackImageLoad (s : APState) (imagePath : String) (imageBase : Nat)
    (imageSize : Nat) : APState × List Event :=
  (s, [.lock, .hookImageLoad imagePath imageBase imageSize, .unlock])

/-- Result of the intercepted-signal callback: final state, emitted events,
the value returned to Pin (reached only on the gated path), and whether the
process was terminated by `exit(0)`. -/
structure SignalResult where
  state : APState
  events : List Event
  returnValue : Bool
  terminated : Bool
  deriving Repr

/-- `callbackSignals`: gated by the Trigger (returns `false` to Pin when
inactive); otherwise, under the lock, refresh the context handle and run the
signal hook, then unconditionally `exit(0)`. -/
def callbackSignals (s : APState) (threadId : Nat) (sig : Int) (ctx : Nat) :
    SignalResult :=
  if s.trigger = false then
    { state := s, events := [], returnValue := false, terminated := false }
  else
    { state := { s with currentCtxH := some ⟨ctx, threadId⟩ }
      events := [.lock, .hookSignal threadId sig, .unlock, .processExit 0]
      returnValue := false
      terminated := true }

/-- `callbackThreadEntry`: lock, (empty body — TODO in source), unlock.  Not
gated by the Trigger and invoking no scripting hook. -/
def callbackThreadEntry (s : APState) (threadId : Nat) (ctx : Nat)
    (flags : Int) : APState × List Event :=
  (s, [.lock, .unlock])

/-- `callbackThreadExit`: lock, (empty body — TODO in source), unlock.  Not
gated by the Trigger and invoking no scripting hook. -/
def callbackThreadExit (s : APState) (threadId : Nat) (ctx : Nat)
    (flags : Int) : APState × List Event :=
  (s, [.lock, .unlock])

/-- `callbackLockCheck(address)`: per-instruction wrapper that runs the
stop-rule check `checkLockAnalysis`. -/
def callbackLockCheck (env : PinEnv) (opts : PyTritonOptions) (s : APState)
    (address : Nat) : APState × List Event :=
  checkLockAnalysis env opts s address

/-- `callbackFini`: run the end-of-run hook. -/
def callbackFini (s : APState) : APState × List Event :=
  (s, [.hookFini])

/-- Instrumentation points at which Pin can run an inserted callback. -/
inductive IPoint where
  | ipointBefore : IPoint
  | ipointAfter : IPoint
  | takenBranch : IPoint
  deriving DecidableEq, Repr

/-- Static per-instruction information consumed by `TRACE_Instrumentation`
(Pin `INS` queries). -/
structure InsInfo where
  address : Nat
  memoryOperandCount : Nat
  isSyscall : Bool
  hasFallThrough : Bool
  operandCount : Nat
  memoryOperandIsWritten : Bool
  memoryWriteSize : Nat
  irb : IRBuilderInfo
  deriving DecidableEq, Repr

/-- A callback insertion performed by the installer (`INS_InsertCall`). -/
inductive Insertion where
  | insBefore (irb : IRBuilderInfo) (point : IPoint) (hasEA : Bool) : Insertion
  | insAfter (point : IPoint) : Insertion
  | insLockCheck (point : IPoint) : Insertion
  | insSnapshot (point : IPoint) (writeSize : Nat) : Insertion
  deriving DecidableEq, Repr

/-- The callbacks inserted for one instruction by the body of the `INS` loop
of `TRACE_Instrumentation`: the before-callback always; the after-callback and
the stop-rule check only for non-syscall instructions (at `IPOINT_AFTER`, or
`IPOINT_TAKEN_BRANCH` without fall-through); the snapshot callback only for
memory-writing instructions. -/
def instrumentIns (ins : InsInfo) : List Insertion :=
  (if ins.memoryOperandCount > 0 then
    [Insertion.insBefore ins.irb .ipointBefore true]
  else
    [Insertion.insBefore ins.irb .ipointBefore false])
  ++
  (if ins.isSyscall = false then
    let w := if ins.hasFallThrough = false then IPoint.takenBranch else IPoint.ipointAfter
    [Insertion.insAfter w, Insertion.insLockCheck w]
  else
    [])
  ++
  (if ins.operandCount > 1 ∧ ins.memoryOperandIsWritten then
    [Insertion.insSnapshot .ipointBefore ins.memoryWriteSize]
  else
    [])

/-- The `INS` loop of `TRACE_Instrumentation` over one basic block: per
instruction, run `checkUnlockAnalysis`, then abort the whole walk when the
Trigger is inactive, else insert that instruction's callbacks.  The final
`Bool` reports whether the walk was aborted. -/
def instrumentInsList (env : PinEnv) (opts : PyTritonOptions) :
    APState → List InsInfo → APState × List Event × List (InsInfo × Insertion) × Bool
  | s, [] => (s, [], [], false)
  | s, ins :: rest =>
      let c := checkUnlockAnalysis env opts s ins.address
      if c.1.trigger = false then
        (c.1, c.2, [], true)
      else
        let r := instrumentInsList env opts c.1 rest
        (r.1, c.2 ++ r.2.1, (instrumentIns ins).map (fun ic => (ins, ic)) ++ r.2.2.1, r.2.2.2)

/-- `TRACE_Instrumentation`: walk the basic blocks of a trace, instrumenting
each instruction; an inactive Trigger aborts the whole walk (the `return`
exits both loops). -/
def TRACE_Instrumentation (env : PinEnv) (opts : PyTritonOptions) :
    APState → List (List InsInfo) → APState × List Event × List (InsInfo × Insertion)
  | s, [] => (s, [], [])
  | s, bbl :: rest =>
      let r := instrumentInsList env opts s bbl
      if r.2.2.2 then
        (r.1, r.2.1, r.2.2.1)
      else
        let r2 := TRACE_Instrumentation env opts r.1 rest
        (r2.1, r.2.1 ++ r2.2.1, r.2.2.1 ++ r2.2.2)

/-- Write `bytes` into memory starting at `addr` (one byte per cell), the
effect of the instrumented memory-writing instruction itself. -/
def applyWrite : (Nat → Nat) → Nat → List Nat → (Nat → Nat)
  | memory, _, [] => memory
  | memory, addr, b :: bs =>
      applyWrite (fun a => if a = addr then b else memory a) (addr + 1) bs

/-- One instrumented memory-writing instruction: the snapshot callback fires
at `IPOINT_BEFORE` on the pre-write memory, then the write takes effect. -/
def execInstrumentedWrite (s : APState) (memory : Nat → Nat) (addr : Nat)
    (bytes : List Nat) : APState × List Event × (Nat → Nat) :=
  let r := callbackSnapshot s memory addr bytes.length
  (r.1, r.2, applyWrite memory addr bytes)

/-- The pair of callbacks inserted at an instruction's exit point, in
insertion order: `callbackAfter`, then `callbackLockCheck`. -/
def execAfterPoint (env : PinEnv) (opts : PyTritonOptions) (s : APState)
    (ctx : Nat) (threadId : Nat) (address : Nat) : APState × List Event :=
  let a := callbackAfter s ctx threadId
  let c := callbackLockCheck env opts a.1 address
  (c.1, a.2 ++ c.2)

/-- Lock-depth contribution of one event. -/
def lockDelta : Event → Int
  | .lock => 1
  | .unlock => -1
  | _ => 0

/-- Run the lock-depth automaton from depth `d`: `none` when an unlock occurs
with no lock held, else the final depth. -/
def runLockDepth : Int → List Event → Option Int
  | d, [] => some d
  | d, e :: es =>
      let d2 := d + lockDelta e
      if d2 < 0 then none else runLockDepth d2 es

/-- An event list is lock-balanced when, started with no lock held, every
release matches an earlier acquisition and the list ends with no lock held:
acquisitions and releases pair up exactly. -/
def lockBalanced (es : List Event) : Prop :=
  runLockDepth 0 es = some 0

instance (es : List Event) : Decidable (lockBalanced es) := by
  unfold lockBalanced
  infer_instance

/-- Does the insertion belong to the instruction's exit-point pair (the
after-callback or the stop-rule check)? -/
def Insertion.isExitPointCheck : Insertion → Bool
  | .insAfter _ => true
  | .insLockCheck _ => true
  | _ => false

/-- Host environment in which no address resolves to a module and no routine
name is known. -/
def envUnresolved : PinEnv where
  resolveImageBase := fun _ => none
  findNameByAddress := fun _ => ""

/-- Host environment in which every address resolves to routine "helper". -/
def envHelper : PinEnv where
  resolveImageBase := fun _ => none
  findNameByAddress := fun _ => "helper"

/-- Empty rule configuration. -/
def optsEmpty : PyTritonOptions := ⟨[], [], none, [], []⟩

/-- Configuration with start symbol "main" and start address 5. -/
def optsSymbolAndAddr : PyTritonOptions := ⟨[], [], some "main", [5], []⟩

/-- Configuration whose stop-offset set contains 0. -/
def optsStopOffsetZero : PyTritonOptions := ⟨[], [0], none, [], []⟩

/-- Configuration with stop address 0x4010a0 (Scenario B of the spec). -/
def optsStopB : PyTritonOptions := ⟨[0x4010a0], [], none, [], []⟩

/-- Analysis state with the Trigger inactive. -/
def stateInactive : APState := ⟨false, false, none, [], [], 0⟩

/-- Analysis state with the Trigger active. -/
def stateActive : APState := ⟨true, false, none, [], [], 0⟩

/-- Analysis state with the Trigger active and the snapshot journal locked. -/
def stateSnapLocked : APState := ⟨true, true, none, [], [], 0⟩

/-- A sample IR-builder descriptor. -/
def irbSample : IRBuilderInfo := ⟨0x401000, 0x90, 1, [2, 3], false⟩

/-- A sample memory contents function. -/
def memSample : Nat → Nat := fun a => 2 * a + 1

/-- A syscall instruction as seen by the installer. -/
def insSyscall : InsInfo := ⟨0x401500, 0, true, true, 0, false, 0, irbSample⟩

/-- Configuration with a single start address 5 and no start symbol. -/
def optsStartAddr5 : PyTritonOptions := ⟨[], [], none, [5], []⟩

/-- The event list of `getBaseAddress` is one lock/unlock pair. -/
theorem getBaseAddress_events (env : PinEnv) (a : Nat) :
    (getBaseAddress env a).2 = [Event.lock, Event.unlock] := by
  unfold getBaseAddress
  cases env.resolveImageBase a <;> rfl

/-- The event list of `getInsOffset` is one lock/unlock pair. -/
theorem getInsOffset_events (env : PinEnv) (a : Nat) :
    (getInsOffset env a).2 = [Event.lock, Event.unlock] := by
  unfold getInsOffset
  rcases h : getBaseAddress env a with ⟨v, es⟩
  have : es = [Event.lock, Event.unlock] := by
    have := getBaseAddress_events env a
    rw [h] at this
    exact this
  by_cases hv : v = 0 <;> simp [hv, this]

/-- The three possible outcomes of the stop-rule check: deactivation via the
address rule, deactivation via the offset rule, or no match. -/
theorem checkLockAnalysis_cases (env : PinEnv) (opts : PyTritonOptions)
    (s : APState) (a : Nat) :
    checkLockAnalysis env opts s a =
      ({ s with trigger := false }, [.lock, .triggerUpdate false, .unlock]) ∨
    checkLockAnalysis env opts s a =
      ({ s with trigger := false }, [.lock, .unlock, .lock, .triggerUpdate false, .unlock]) ∨
    checkLockAnalysis env opts s a = (s, [.lock, .unlock]) := by
  unfold checkLockAnalysis
  by_cases h1 : a ∈ opts.stopAnalysisFromAddr
  · left
    simp [h1, toggleWrapper]
  · by_cases h2 : (getInsOffset env a).1 ∈ opts.stopAnalysisFromOffset
    · right; left
      simp [h1, h2, toggleWrapper, getInsOffset_events env a]
    · right; right
      simp [h1, h2, getInsOffset_events env a]

/-- Splitting `runLockDepth` across an append. -/
theorem runLockDepth_append (a b : List Event) : ∀ d : Int,
    runLockDepth d (a ++ b) = (runLockDepth d a).bind (fun d2 => runLockDepth d2 b) := by
  induction a with
  | nil => intro d; rfl
  | cons e es ih =>
      intro d
      by_cases h : d + lockDelta e < 0 <;> simp [runLockDepth, h, ih]

/-- Events that are neither lock nor unlock leave the lock depth unchanged. -/
theorem runLockDepth_neutral (L : List Event) (h : ∀ e ∈ L, lockDelta e = 0) :
    ∀ d : Int, 0 ≤ d → runLockDepth d L = some d := by
  induction L with
  | nil => intro d _; rfl
  | cons e es ih =>
      intro d hd
      have he : lockDelta e = 0 := h e (List.mem_cons_self e es)
      have hrest : ∀ x ∈ es, lockDelta x = 0 := fun x hx => h x (List.mem_cons_of_mem e hx)
      simp [runLockDepth, he, Int.not_lt.mpr hd, ih hrest d hd]

/-- A lock, a run of depth-neutral events, an unlock, then more depth-neutral
events: lock-balanced. -/
theorem lockBalanced_sections (L1 L2 : List Event)
    (h1 : ∀ e ∈ L1, lockDelta e = 0) (h2 : ∀ e ∈ L2, lockDelta e = 0) :
    lockBalanced (Event.lock :: (L1 ++ Event.unlock :: L2)) := by
  unfold lockBalanced
  have step1 : runLockDepth 0 (Event.lock :: (L1 ++ Event.unlock :: L2)) =
      runLockDepth 1 (L1 ++ Event.unlock :: L2) := by
    simp [runLockDepth, lockDelta]
  rw [step1, runLockDepth_append, runLockDepth_neutral L1 h1 1 (by omega)]
  have step2 : runLockDepth 1 (Event.unlock :: L2) = runLockDepth 0 L2 := by
    simp [runLockDepth, lockDelta]
  simp [step2, runLockDepth_neutral L2 h2 0 (by omega)]

/-- Lock-balance is preserved by concatenation. -/
theorem lockBalanced_append (a b : List Event)
    (ha : lockBalanced a) (hb : lockBalanced b) : lockBalanced (a ++ b) := by
  unfold lockBalanced at *
  rw [runLockDepth_append, ha]
  exact hb

/-- The empty event list is lock-balanced. -/
theorem lockBalanced_nil : lockBalanced [] := rfl

/-- C9: the routine-entry and routine-exit callbacks are extensionally
identical — for every state, context, thread id and callback handle they
perform the same operations and produce the same state and events. -/
theorem C9_routine_entry_exit_identical (s : APState) (ctx threadId callback : Nat) :
    callbackRoutineEntry s ctx threadId callback =
      callbackRoutineExit s ctx threadId callback := rfl

/-- C3 counterexample: with start symbol "main" configured but not matching
address 5, membership of 5 in `startAnalysisFromAddr` does not activate the
Trigger — refuting the claimed disjunction. -/
theorem C3_counterexample :
    optsSymbolAndAddr.startAnalysisFromSymbol = some "main" ∧
    (5 : Nat) ∈ optsSymbolAndAddr.startAnalysisFromAddr ∧
    envHelper.findNameByAddress 5 ≠ "main" ∧
    stateInactive.trigger = false ∧
    (checkUnlockAnalysis envHelper optsSymbolAndAddr stateInactive 5).1.trigger = false := by
  decide

/-- C3 (amended): when a start symbol is configured the activation rule is
evaluated on the symbol alone — the address and offset start rules are not
consulted; only when no start symbol is configured does membership in
`startAnalysisFromAddr`, or of the offset in `startAnalysisFromOffset`,
activate the Trigger. -/
theorem C3_activation_rule_evaluation (env : PinEnv) (opts : PyTritonOptions)
    (s : APState) (a : Nat) :
    (∀ sym, opts.startAnalysisFromSymbol = some sym →
       ((checkUnlockAnalysis env opts s a).1.trigger = true ↔
         (env.findNameByAddress a = sym ∨ s.trigger = true))) ∧
    (opts.startAnalysisFromSymbol = none →
       ((checkUnlockAnalysis env opts s a).1.trigger = true ↔
         (a ∈ opts.startAnalysisFromAddr ∨
          (getInsOffset env a).1 ∈ opts.startAnalysisFromOffset ∨
          s.trigger = true))) := by
  constructor
  · intro sym hsym
    by_cases hn : env.findNameByAddress a = sym <;>
      simp [checkUnlockAnalysis, hsym, hn, toggleWrapper]
  · intro hnone
    by_cases h1 : a ∈ opts.startAnalysisFromAddr
    · simp [checkUnlockAnalysis, hnone, h1, toggleWrapper]
    · by_cases h2 : (getInsOffset env a).1 ∈ opts.startAnalysisFromOffset <;>
        simp [checkUnlockAnalysis, hnone, h1, h2, toggleWrapper]

/-- C3 witness: with no start symbol, start address 5 activates the Trigger. -/
theorem C3_witness :
    optsStartAddr5.startAnalysisFromSymbol = none ∧
    ((checkUnlockAnalysis envUnresolved optsStartAddr5 stateInactive 5).1.trigger = true ↔
      (5 ∈ optsStartAddr5.startAnalysisFromAddr ∨
       (getInsOffset envUnresolved 5).1 ∈ optsStartAddr5.startAnalysisFromOffset ∨
       stateInactive.trigger = true)) :=
  ⟨rfl, (C3_activation_rule_evaluation envUnresolved optsStartAddr5 stateInactive 5).2 rfl⟩

/-- C4 counterexample: address 7 has no resolvable owning module, its offset
resolves to the sentinel 0, and with `stopAnalysisFromOffset = {0}` the
offset-based stop rule does match — deactivating the Trigger — refuting the
claim that the sentinel can never be a member of a configured offset set. -/
theorem C4_counterexample :
    envUnresolved.resolveImageBase 7 = none ∧
    (getInsOffset envUnresolved 7).1 = 0 ∧
    (0 : Nat) ∈ optsStopOffsetZero.stopAnalysisFromOffset ∧
    stateActive.trigger = true ∧
    (checkLockAnalysis envUnresolved optsStopOffsetZero stateActive 7).1.trigger = false := by
  decide

/-- C4 (amended): for an address whose owning module cannot be resolved,
offset resolution returns the sentinel `0`; since `0` is an ordinary value
that can itself be configured, the offset-based stop and start rules fail to
match for such an address exactly when `0` is not among the configured
offsets (and the address rules do not match either). -/
theorem C4_offset_sentinel (env : PinEnv) (opts : PyTritonOptions) (s : APState)
    (a : Nat) (h : env.resolveImageBase a = none) :
    (getInsOffset env a).1 = 0 ∧
    (a ∉ opts.stopAnalysisFromAddr → (0 : Nat) ∉ opts.stopAnalysisFromOffset →
       checkLockAnalysis env opts s a = (s, [Event.lock, Event.unlock])) ∧
    (opts.startAnalysisFromSymbol = none → a ∉ opts.startAnalysisFromAddr →
     (0 : Nat) ∉ opts.startAnalysisFromOffset →
       checkUnlockAnalysis env opts s a = (s, [Event.lock, Event.unlock])) := by
  have hval : (getInsOffset env a).1 = 0 := by
    simp [getInsOffset, getBaseAddress, h]
  refine ⟨hval, ?_, ?_⟩
  · intro h1 h2
    have hev := getInsOffset_events env a
    simp [checkLockAnalysis, h1, hval, h2, hev]
  · intro hsym h1 h2
    have hev := getInsOffset_events env a
    simp [checkUnlockAnalysis, hsym, h1, hval, h2, hev]

/-- C4 witness: with an empty configuration, an unresolvable address matches
no stop rule and the state is unchanged. -/
theorem C4_witness :
    envUnresolved.resolveImageBase 7 = none ∧
    (getInsOffset envUnresolved 7).1 = 0 ∧
    checkLockAnalysis envUnresolved optsEmpty stateActive 7 =
      (stateActive, [Event.lock, Event.unlock]) := by
  have h := C4_offset_sentinel envUnresolved optsEmpty stateActive 7 rfl
  exact ⟨rfl, h.1, h.2.1 (by decide) (by decide)⟩

/-- C2 counterexample: with the Trigger inactive, an intercepted signal is
not forwarded to the scripting hook and the process is not terminated —
refuting "regardless of the Trigger state". -/
theorem C2_counterexample :
    stateInactive.trigger = false ∧
    (callbackSignals stateInactive 1 11 0).events = [] ∧
    (callbackSignals stateInactive 1 11 0).terminated = false := by
  decide

/-- C2 (amended): when the Trigger is active, the signal handler forwards the
event exactly once to the scripting signal hook under the lock and then
unconditionally terminates the process; when the Trigger is inactive it
returns immediately, forwarding nothing and not terminating. -/
theorem C2_signal_router (s : APState) (threadId : Nat) (sig : Int) (ctx : Nat) :
    (s.trigger = true →
       (callbackSignals s threadId sig ctx).events =
         [Event.lock, Event.hookSignal threadId sig, Event.unlock, Event.processExit 0] ∧
       (callbackSignals s threadId sig ctx).terminated = true) ∧
    (s.trigger = false →
       callbackSignals s threadId sig ctx =
         { state := s, events := [], returnValue := false, terminated := false }) := by
  constructor
  · intro h
    simp [callbackSignals, h]
  · intro h
    simp [callbackSignals, h]

/-- C2 witness: active-Trigger signal delivery at thread 1, signal 11. -/
theorem C2_witness :
    (callbackSignals stateActive 1 11 0).events =
      [Event.lock, Event.hookSignal 1 11, Event.unlock, Event.processExit 0] ∧
    (callbackSignals stateActive 1 11 0).terminated = true :=
  (C2_signal_router stateActive 1 11 0).1 rfl

/-- C7 counterexample: the thread-start and thread-exit callbacks acquire the
lock even while the Trigger is inactive — they are not gated. -/
theorem C7_counterexample :
    stateInactive.trigger = false ∧
    Event.lock ∈ (callbackThreadEntry stateInactive 1 0 0).2 ∧
    Event.lock ∈ (callbackThreadExit stateInactive 1 0 0).2 := by
  decide

/-- C7 (amended): the syscall-entry, syscall-exit, routine-entry,
routine-exit and signal callbacks are gated by the Trigger (inactive: return
immediately with no lock and no state change; active: acquire the lock and
invoke the matching hook); image-load is ungated; but the thread-start and
thread-exit callbacks are not gated — they acquire and release the lock
unconditionally and invoke no scripting hook at all. -/
theorem C7_lifecycle_gating (s : APState) (threadId ctx std cb : Nat)
    (sig flags : Int) (path : String) (base size : Nat) :
    callbackThreadEntry s threadId ctx flags = (s, [Event.lock, Event.unlock]) ∧
    callbackThreadExit s threadId ctx flags = (s, [Event.lock, Event.unlock]) ∧
    (∀ e ∈ (callbackThreadEntry s threadId ctx flags).2, e.isHook = false) ∧
    (∀ e ∈ (callbackThreadExit s threadId ctx flags).2, e.isHook = false) ∧
    (s.trigger = false →
       callbackSyscallEntry s threadId ctx std = (s, []) ∧
       callbackSyscallExit s threadId ctx std = (s, []) ∧
       callbackRoutineEntry s ctx threadId cb = (s, []) ∧
       callbackRoutineExit s ctx threadId cb = (s, []) ∧
       (callbackSignals s threadId sig ctx).events = []) ∧
    (s.trigger = true →
       Event.hookSyscallEntry threadId std ∈ (callbackSyscallEntry s threadId ctx std).2 ∧
       Event.hookSyscallExit threadId std ∈ (callbackSyscallExit s threadId ctx std).2 ∧
       Event.hookRoutine threadId cb ∈ (callbackRoutineEntry s ctx threadId cb).2) ∧
    Event.hookImageLoad path base size ∈ (callbackImageLoad s path base size).2 := by
  refine ⟨rfl, rfl,
    by intro e he; simp only [callbackThreadEntry] at he; fin_cases he <;> rfl,
    by intro e he; simp only [callbackThreadExit] at he; fin_cases he <;> rfl,
    ?_, ?_, by simp [callbackImageLoad]⟩
  · intro h
    refine ⟨?_, ?_, ?_, ?_, ?_⟩ <;> simp [callbackSyscallEntry, callbackSyscallExit,
      callbackRoutineEntry, callbackRoutineExit, callbackSignals, h]
  · intro h
    refine ⟨?_, ?_, ?_⟩ <;> simp [callbackSyscallEntry, callbackSyscallExit,
      callbackRoutineEntry, callbackSignals, h]

/-- C7 witness: inactive-Trigger thread-start still locks; inactive-Trigger
syscall-entry returns untouched. -/
theorem C7_witness :
    callbackThreadEntry stateInactive 1 0 0 = (stateInactive, [Event.lock, Event.unlock]) ∧
    callbackSyscallEntry stateInactive 1 0 0 = (stateInactive, []) :=
  ⟨(C7_lifecycle_gating stateInactive 1 0 0 0 0 0 "" 0 0).1,
   ((C7_lifecycle_gating stateInactive 1 0 0 0 0 0 "" 0 0).2.2.2.2.1 rfl).1⟩

/-- C1 counterexample: while the Trigger is inactive, the per-instruction
stop-rule check still acquires the lock (inside offset resolution) —
refuting "no lock is acquired by any of the per-instruction callbacks". -/
theorem C1_counterexample :
    stateInactive.trigger = false ∧
    Event.lock ∈ (callbackLockCheck envUnresolved optsEmpty stateInactive 0).2 := by
  decide

/-- C1 (amended): for an instruction executed while the Trigger is inactive,
the before, after and snapshot callbacks return immediately — no record, no
hook, no lock, no state change; the stop-rule check likewise creates no
record and invokes no scripting hook, but it does acquire (and release) the
lock, inside offset resolution and, on a match, the trigger toggle. -/
theorem C1_inactive_instruction_pipeline (env : PinEnv) (opts : PyTritonOptions)
    (s : APState) (h : s.trigger = false) (irb : IRBuilderInfo)
    (ctx ea bta threadId mem n addr : Nat) (hasEA bt : Bool)
    (memory : Nat → Nat) :
    callbackBefore s irb ctx hasEA ea bt bta threadId = (s, []) ∧
    callbackAfter s ctx threadId = (s, []) ∧
    callbackSnapshot s memory mem n = (s, []) ∧
    (callbackLockCheck env opts s addr).1.trace = s.trace ∧
    (∀ e ∈ (callbackLockCheck env opts s addr).2,
       e.isHook = false ∧ e ≠ Event.recordCreated) ∧
    Event.lock ∈ (callbackLockCheck env opts s addr).2 := by
  refine ⟨by simp [callbackBefore, h], by simp [callbackAfter, h],
    by simp [callbackSnapshot, h], ?_, ?_, ?_⟩
  · rcases checkLockAnalysis_cases env opts s addr with hc | hc | hc <;>
      simp [callbackLockCheck, hc]
  · rcases checkLockAnalysis_cases env opts s addr with hc | hc | hc <;>
      (intro e he; simp only [callbackLockCheck, hc] at he; fin_cases he <;> exact ⟨rfl, by decide⟩)
  · rcases checkLockAnalysis_cases env opts s addr with hc | hc | hc <;>
      simp [callbackLockCheck, hc]

/-- C1 witness: concrete inactive state, empty configuration, address 0. -/
theorem C1_witness :
    callbackBefore stateInactive irbSample 0 false 0 false 0 1 = (stateInactive, []) ∧
    Event.lock ∈ (callbackLockCheck envUnresolved optsEmpty stateInactive 0).2 := by
  have h := C1_inactive_instruction_pipeline envUnresolved optsEmpty stateInactive rfl
    irbSample 0 0 0 1 0 0 0 false false (fun _ => 0)
  exact ⟨h.1, h.2.2.2.2.2⟩

/-- C5: one instrumented memory write of `bytes.length` bytes at `addr`
appends, while the Trigger is active and the journal unlocked, exactly one
journal entry per written byte at addresses `addr .. addr+n-1`, each carrying
the byte's value in the pre-write memory; with the journal locked or the
Trigger inactive, no entry is appended. -/
theorem C5_snapshot_journal (s : APState) (memory : Nat → Nat) (addr : Nat)
    (bytes : List Nat) :
    (s.trigger = true → s.snapshotLocked = false →
       (execInstrumentedWrite s memory addr bytes).1.snapshot =
         s.snapshot ++
           (List.range bytes.length).map (fun i => (addr + i, memory (addr + i))) ∧
       (execInstrumentedWrite s memory addr bytes).1.snapshot.length =
         s.snapshot.length + bytes.length) ∧
    ((s.trigger = false ∨ s.snapshotLocked = true) →
       (execInstrumentedWrite s memory addr bytes).1.snapshot = s.snapshot) := by
  constructor
  · intro ht hl
    constructor <;> simp [execInstrumentedWrite, callbackSnapshot, ht, hl]
  · intro h
    rcases h with h | h
    · simp [execInstrumentedWrite, callbackSnapshot, h]
    · by_cases ht : s.trigger = false <;>
        simp [execInstrumentedWrite, callbackSnapshot, ht, h]

/-- C5 witness (Scenario C): a 4-byte write at address 100 journals the four
pre-write bytes at 100..103. -/
theorem C5_witness :
    stateActive.trigger = true ∧ stateActive.snapshotLocked = false ∧
    (execInstrumentedWrite stateActive memSample 100 [9, 9, 9, 9]).1.snapshot =
      [(100, 201), (101, 203), (102, 205), (103, 207)] := by
  have h := (C5_snapshot_journal stateActive memSample 100 [9, 9, 9, 9]).1 rfl rfl
  refine ⟨rfl, rfl, ?_⟩
  rw [h.1]
  decide

/-- C6: an address in `stopAnalysisFromAddr` deactivates the Trigger at its
exit-point pair (after-callback then stop-rule check), and the before-callback
of the very next executed instruction — whatever its inputs — returns with no
record, no events and no state change, until an activation rule matches
again. -/
theorem C6_stop_address_deactivates (env : PinEnv) (opts : PyTritonOptions)
    (s : APState) (ctx threadId a : Nat) (h : a ∈ opts.stopAnalysisFromAddr) :
    (execAfterPoint env opts s ctx threadId a).1.trigger = false ∧
    ∀ (irb : IRBuilderInfo) (ctx2 ea2 bta2 tid2 : Nat) (hasEA2 bt2 : Bool),
      callbackBefore (execAfterPoint env opts s ctx threadId a).1
          irb ctx2 hasEA2 ea2 bt2 bta2 tid2 =
        ((execAfterPoint env opts s ctx threadId a).1, []) := by
  have htrig : (execAfterPoint env opts s ctx threadId a).1.trigger = false := by
    simp [execAfterPoint, callbackLockCheck, checkLockAnalysis, h, toggleWrapper]
  refine ⟨htrig, ?_⟩
  intro irb ctx2 ea2 bta2 tid2 hasEA2 bt2
  simp [callbackBefore, htrig]

/-- C6 witness (Scenario B): stop address 0x4010a0 deactivates the Trigger and
the next before-callback produces nothing. -/
theorem C6_witness :
    (execAfterPoint envUnresolved optsStopB stateActive 0 1 0x4010a0).1.trigger = false ∧
    callbackBefore (execAfterPoint envUnresolved optsStopB stateActive 0 1 0x4010a0).1
        irbSample 0 false 0 false 0 1 =
      ((execAfterPoint envUnresolved optsStopB stateActive 0 1 0x4010a0).1, []) := by
  have h := C6_stop_address_deactivates envUnresolved optsStopB stateActive 0 1 0x4010a0
    (by decide)
  exact ⟨h.1, h.2 irbSample 0 0 0 1 false false⟩

/-- C8: in every callback invocation the emitted event list is lock-balanced
— every acquisition of the global lock is matched by exactly one release, on
every exit path — and the Trigger-inactive early-return path of each gated
callback emits no event at all, hence acquires no lock. -/
theorem C8_lock_release_discipline :
    (∀ (s : APState) (irb : IRBuilderInfo) (ctx ea bta tid : Nat) (hasEA bt : Bool),
        lockBalanced (callbackBefore s irb ctx hasEA ea bt bta tid).2 ∧
        (callbackBefore { s with trigger := false } irb ctx hasEA ea bt bta tid).2 = []) ∧
    (∀ (s : APState) (ctx tid : Nat),
        lockBalanced (callbackAfter s ctx tid).2 ∧
        (callbackAfter { s with trigger := false } ctx tid).2 = []) ∧
    (∀ (s : APState) (memory : Nat → Nat) (mem n : Nat),
        lockBalanced (callbackSnapshot s memory mem n).2 ∧
        (callbackSnapshot { s with trigger := false } memory mem n).2 = []) ∧
    (∀ (s : APState) (ctx tid cb : Nat),
        lockBalanced (callbackRoutineEntry s ctx tid cb).2 ∧
        (callbackRoutineEntry { s with trigger := false } ctx tid cb).2 = []) ∧
    (∀ (s : APState) (ctx tid cb : Nat),
        lockBalanced (callbackRoutineExit s ctx tid cb).2 ∧
        (callbackRoutineExit { s with trigger := false } ctx tid cb).2 = []) ∧
    (∀ (s : APState) (tid ctx std : Nat),
        lockBalanced (callbackSyscallEntry s tid ctx std).2 ∧
        (callbackSyscallEntry { s with trigger := false } tid ctx std).2 = []) ∧
    (∀ (s : APState) (tid ctx std : Nat),
        lockBalanced (callbackSyscallExit s tid ctx std).2 ∧
        (callbackSyscallExit { s with trigger := false } tid ctx std).2 = []) ∧
    (∀ (s : APState) (tid : Nat) (sig : Int) (ctx : Nat),
        lockBalanced (callbackSignals s tid sig ctx).events ∧
        (callbackSignals { s with trigger := false } tid sig ctx).events = []) ∧
    (∀ (s : APState) (path : String) (base size : Nat),
        lockBalanced (callbackImageLoad s path base size).2) ∧
    (∀ (s : APState) (tid ctx : Nat) (flags : Int),
        lockBalanced (callbackThreadEntry s tid ctx flags).2 ∧
        lockBalanced (callbackThreadExit s tid ctx flags).2) ∧
    (∀ (env : PinEnv) (opts : PyTritonOptions) (s : APState) (a : Nat),
        lockBalanced (callbackLockCheck env opts s a).2) ∧
    (∀ (env : PinEnv) (opts : PyTritonOptions) (s : APState) (a : Nat),
        lockBalanced (getBaseAddress env a).2 ∧
        lockBalanced (getInsOffset env a).2 ∧
        lockBalanced (toggleWrapper s.trigger s).2) ∧
    (∀ (s : APState), lockBalanced (callbackFini s).2) := by
  refine ⟨?_, ?_, ?_, ?_, ?_, ?_, ?_, ?_, ?_, ?_, ?_, ?_, ?_⟩
  · intro s irb ctx ea bta tid hasEA bt
    constructor
    · by_cases h : s.trigger = false
      · simp [callbackBefore, h, lockBalanced_nil]
      · simp only [callbackBefore, h, if_false]
        exact lockBalanced_sections
          [.hookApplyConf, .hookBeforeIRProc, .recordCreated, .hookBefore] []
          (by intro e he; fin_cases he <;> rfl) (by intro e he; fin_cases he)
    · simp [callbackBefore]
  · intro s ctx tid
    constructor
    · by_cases h : s.trigger = false
      · simp [callbackAfter, h, lockBalanced_nil]
      · simp only [callbackAfter, h, if_false]
        exact lockBalanced_sections [.hookAfter] []
          (by intro e he; fin_cases he <;> rfl) (by intro e he; fin_cases he)
    · simp [callbackAfter]
  · intro s memory mem n
    constructor
    · by_cases h : s.trigger = false
      · simp [callbackSnapshot, h, lockBalanced_nil]
      · by_cases h2 : s.snapshotLocked
        · simp [callbackSnapshot, h, h2, lockBalanced_nil]
        · simp only [callbackSnapshot, h, h2, if_false]
          exact lockBalanced_sections
            (((List.range n).map (fun i => (mem + i, memory (mem + i)))).map
              (fun p => Event.snapshotAdd p.1 p.2)) []
            (by
              intro e he
              rcases List.mem_map.mp he with ⟨p, _, rfl⟩
              rfl)
            (by intro e he; fin_cases he)
    · simp [callbackSnapshot]
  · intro s ctx tid cb
    constructor
    · by_cases h : s.trigger = false
      · simp [callbackRoutineEntry, h, lockBalanced_nil]
      · simp only [callbackRoutineEntry, h, if_false]
        exact lockBalanced_sections [.hookRoutine tid cb] []
          (by intro e he; fin_cases he <;> rfl) (by intro e he; fin_cases he)
    · simp [callbackRoutineEntry]
  · intro s ctx tid cb
    constructor
    · by_cases h : s.trigger = false
      · simp [callbackRoutineExit, h, lockBalanced_nil]
      · simp only [callbackRoutineExit, h, if_false]
        exact lockBalanced_sections [.hookRoutine tid cb] []
          (by intro e he; fin_cases he <;> rfl) (by intro e he; fin_cases he)
    · simp [callbackRoutineExit]
  · intro s tid ctx std
    constructor
    · by_cases h : s.trigger = false
      · simp [callbackSyscallEntry, h, lockBalanced_nil]
      · simp only [callbackSyscallEntry, h, if_false]
        exact lockBalanced_sections [.hookSyscallEntry tid std] []
          (by intro e he; fin_cases he <;> rfl) (by intro e he; fin_cases he)
    · simp [callbackSyscallEntry]
  · intro s tid ctx std
    constructor
    · by_cases h : s.trigger = false
      · simp [callbackSyscallExit, h, lockBalanced_nil]
      · simp only [callbackSyscallExit, h, if_false]
        exact lockBalanced_sections [.hookSyscallExit tid std] []
          (by intro e he; fin_cases he <;> rfl) (by intro e he; fin_cases he)
    · simp [callbackSyscallExit]
  · intro s tid sig ctx
    constructor
    · by_cases h : s.trigger = false
      · simp [callbackSignals, h, lockBalanced_nil]
      · simp only [callbackSignals, h, if_false]
        exact lockBalanced_sections [.hookSignal tid sig] [.processExit 0]
          (by intro e he; fin_cases he <;> rfl) (by intro e he; fin_cases he <;> rfl)
    · simp [callbackSignals]
  · intro s path base size
    exact lockBalanced_sections [.hookImageLoad path base size] []
      (by intro e he; fin_cases he <;> rfl) (by intro e he; fin_cases he)
  · intro s tid ctx flags
    constructor
    · exact lockBalanced_sections [] []
        (by intro e he; fin_cases he) (by intro e he; fin_cases he)
    · exact lockBalanced_sections [] []
        (by intro e he; fin_cases he) (by intro e he; fin_cases he)
  · intro env opts s a
    rcases checkLockAnalysis_cases env opts s a with hc | hc | hc <;>
      simp only [callbackLockCheck, hc]
    · exact lockBalanced_sections [.triggerUpdate false] []
        (by intro e he; fin_cases he <;> rfl) (by intro e he; fin_cases he)
    · exact lockBalanced_append [.lock, .unlock] [.lock, .triggerUpdate false, .unlock]
        (lockBalanced_sections [] [] (by intro e he; fin_cases he) (by intro e he; fin_cases he))
        (lockBalanced_sections [.triggerUpdate false] []
          (by intro e he; fin_cases he <;> rfl) (by intro e he; fin_cases he))
    · exact lockBalanced_sections [] []
        (by intro e he; fin_cases he) (by intro e he; fin_cases he)
  · intro env opts s a
    refine ⟨?_, ?_, ?_⟩
    · rw [getBaseAddress_events]
      exact lockBalanced_sections [] []
        (by intro e he; fin_cases he) (by intro e he; fin_cases he)
    · rw [getInsOffset_events]
      exact lockBalanced_sections [] []
        (by intro e he; fin_cases he) (by intro e he; fin_cases he)
    · exact lockBalanced_sections [.triggerUpdate s.trigger] []
        (by intro e he; fin_cases he <;> rfl) (by intro e he; fin_cases he)
  · intro s
    unfold lockBalanced callbackFini
    rfl

/-- Every insertion produced by the `INS` loop comes from `instrumentIns`
applied to its own instruction. -/
theorem mem_instrumentInsList (env : PinEnv) (opts : PyTritonOptions)
    (l : List InsInfo) : ∀ (s : APState) (p : InsInfo × Insertion),
    p ∈ (instrumentInsList env opts s l).2.2.1 → p.2 ∈ instrumentIns p.1 := by
  induction l with
  | nil =>
      intro s p hp
      simp [instrumentInsList] at hp
  | cons ins rest ih =>
      intro s p hp
      unfold instrumentInsList at hp
      by_cases hc : (checkUnlockAnalysis env opts s ins.address).1.trigger = false
      · simp [hc] at hp
      · simp only [hc, if_false] at hp
        rcases List.mem_append.mp hp with hp | hp
        · rcases List.mem_map.mp hp with ⟨ic, hic, rfl⟩
          simpa using hic
        · exact ih _ p hp

/-- Every insertion produced by `TRACE_Instrumentation` comes from
`instrumentIns` applied to its own instruction. -/
theorem mem_TRACE_Instrumentation (env : PinEnv) (opts : PyTritonOptions)
    (bbls : List (List InsInfo)) : ∀ (s : APState) (p : InsInfo × Insertion),
    p ∈ (TRACE_Instrumentation env opts s bbls).2.2 → p.2 ∈ instrumentIns p.1 := by
  induction bbls with
  | nil =>
      intro s p hp
      simp [TRACE_Instrumentation] at hp
  | cons bbl rest ih =>
      intro s p hp
      unfold TRACE_Instrumentation at hp
      by_cases hstop : (instrumentInsList env opts s bbl).2.2.2 = true
      · simp only [hstop, if_true] at hp
        exact mem_instrumentInsList env opts bbl s p hp
      · simp only [hstop, if_false, List.mem_append, Bool.false_eq_true] at hp
        rcases hp with hp | hp
        · exact mem_instrumentInsList env opts bbl s p hp
        · exact ih _ p hp

/-- For a syscall instruction, `instrumentIns` inserts no after-callback and
no stop-rule check. -/
theorem instrumentIns_syscall (ins : InsInfo) (h : ins.isSyscall = true) :
    ∀ c ∈ instrumentIns ins, c.isExitPointCheck = false := by
  intro c hc
  unfold instrumentIns at hc
  rw [h] at hc
  simp only [List.mem_append] at hc
  rcases hc with (hc | hc) | hc
  · split at hc <;> (simp at hc; subst hc; rfl)
  · simp at hc
  · split at hc
    · simp at hc
      subst hc
      rfl
    · simp at hc

/-- C10: the installer inserts neither the after-instruction callback nor the
stop-rule check for a syscall instruction; consequently a stop address or
stop offset naming a syscall instruction is never evaluated through the
per-instruction exit-point path and cannot deactivate the Trigger there. -/
theorem C10_syscall_no_exit_point (env : PinEnv) (opts : PyTritonOptions)
    (s : APState) (bbls : List (List InsInfo)) (p : InsInfo × Insertion)
    (hp : p ∈ (TRACE_Instrumentation env opts s bbls).2.2)
    (hsys : p.1.isSyscall = true) :
    p.2.isExitPointCheck = false :=
  instrumentIns_syscall p.1 hsys p.2 (mem_TRACE_Instrumentation env opts bbls s p hp)

/-- C10 witness: a one-instruction trace holding a syscall; its only
insertion is the before-callback, which is not an exit-point check. -/
theorem C10_witness :
    ((insSyscall, Insertion.insBefore irbSample .ipointBefore false) ∈
      (TRACE_Instrumentation envUnresolved optsEmpty stateActive [[insSyscall]]).2.2) ∧
    insSyscall.isSyscall = true ∧
    (Insertion.insBefore irbSample .ipointBefore false).isExitPointCheck = false := by
  refine ⟨by decide, rfl,
    C10_syscall_no_exit_point envUnresolved optsEmpty stateActive [[insSyscall]]
      (insSyscall, Insertion.insBefore irbSample .ipointBefore false) (by decide) rfl⟩

end Triton
